import Mathlib

/-!
Verification development for the pdf_struct page-extraction scheduler
(src/extractor/src/extractor.rs).  The Rust source is shallowly embedded:
raw handle addresses become `Nat` (0 standing for the null address),
fallible backend calls become `Except` values supplied as environment
parameters, and effectful worker code additionally returns a trace of
backend calls.  The orchestrator select-loop of `Extractor::iter_pages`
becomes a step function over an explicit state, driven by a list of
events (one event per fired select branch); events whose select guard is
false cannot fire, so a trace containing one is invalid (`none`).
-/

namespace PdfStruct

/-- Memory address of a native handle; 0 models the null pointer. -/
abbrev MemAddress := Nat

/-- Control messages accepted by the orchestrator loop (source: `enum ControlMessage`). -/
inductive ControlMessage
  | Stop
  | Pause
  | Resume
deriving DecidableEq, Repr

/-- Error taxonomy of the source (source: `enum PageRenderError`). -/
inductive PageRenderError
  | InvalidContextHandle
  | PassedNullptrToBuffer
  | PageDoesNotExist
  | FailedToCreatePixMap (detail : String)
  | RenderError (detail : String)
  | Unexpected (detail : String)
deriving DecidableEq, Repr

/-- Whether `pat` is an initial segment of `cs`. -/
def charsLeadWith : List Char → List Char → Bool
  | _, [] => true
  | [], _ :: _ => false
  | c :: cs, p :: ps => c == p && charsLeadWith cs ps

/-- Whether `pat` occurs contiguously in `cs`. -/
def charsContain : List Char → List Char → Bool
  | [], pat => pat.isEmpty
  | c :: cs, pat => charsLeadWith (c :: cs) pat || charsContain cs pat

/-- Rust `str::contains`: substring search over the underlying characters. -/
def strContains (s pat : String) : Bool :=
  charsContain s.data pat.data

/-- Source: `impl From<&str> for PageRenderError`. -/
def pageRenderErrorFromStr (value : String) : PageRenderError :=
  if value = "Invalid context handle" then .InvalidContextHandle
  else if value = "Passed nullptr for a buffer!" then .PassedNullptrToBuffer
  else if value = "Attempted to access a page that doesn't exist within this document!" then
    .PageDoesNotExist
  else if value = "Failed to create pixmap: Unknown error" then
    .FailedToCreatePixMap "Unknown Error!"
  else if strContains value "Failed to create pixmap:" then .FailedToCreatePixMap value
  else if strContains value "Failed to render page" then .RenderError value
  else .Unexpected value

/-- Backend (FFI bridge) calls observable in the worker-unit trace. -/
inductive BackendCall
  | renderPage (page : Nat) (ctx doc : MemAddress)
  | callbackInvoked (page : Nat)
  | freeImageData
  | flushCache (ctx : MemAddress)
  | cleanupPdf (doc ctx : MemAddress)
deriving DecidableEq, Repr

/-- The corruption test of `Extractor::iter_page` on a render-failure message
(source lines 471-475). -/
def isCorruptionMsg (m : String) : Bool :=
  strContains m "Document corruption detected" ||
  strContains m "corrupted and cannot be processed" ||
  strContains m "object out of range" ||
  strContains m "non-page object in page tree"

/-- Body of `Extractor::iter_page` after handle validation (source lines 427-519):
render, classify failure (cleaning up), or on success invoke the callback, free
the image, flush the cache every tenth page, and clean up.  `rr` is the backend
outcome of `render_page`.  Returns the result and the trace of backend calls. -/
def iter_page_body (page : Nat) (ctx doc : MemAddress) (rr : Except String Unit) :
    Except PageRenderError Unit × List BackendCall :=
  match rr with
  | .error msg =>
    let t := [BackendCall.renderPage page ctx doc, BackendCall.cleanupPdf doc ctx]
    if isCorruptionMsg msg then
      (.error (.Unexpected
        ("Document corruption detected at page " ++ toString page ++ ": " ++ msg)), t)
    else
      (.error (.Unexpected msg), t)
  | .ok _ =>
    (.ok (),
      [BackendCall.renderPage page ctx doc, BackendCall.callbackInvoked page,
        BackendCall.freeImageData] ++
      (if page % 10 = 0 then [BackendCall.flushCache ctx] else []) ++
      [BackendCall.cleanupPdf doc ctx])

/-- Source: `Extractor::iter_page` (lines 392-519): validate the handles,
then run the body. -/
def iter_page (page : Nat) (ctx doc : MemAddress) (rr : Except String Unit) :
    Except PageRenderError Unit × List BackendCall :=
  if ctx = 0 then (.error .InvalidContextHandle, [])
  else if doc = 0 then (.error (.Unexpected "Document handle is null"), [])
  else iter_page_body page ctx doc rr

/-- Number of `cleanup_pdf` calls in a trace. -/
def cleanupCount (t : List BackendCall) : Nat :=
  t.countP fun c => match c with | .cleanupPdf _ _ => true | _ => false

/-- Number of `flush_cache` calls in a trace. -/
def flushCount (t : List BackendCall) : Nat :=
  t.countP fun c => match c with | .flushCache _ => true | _ => false

/-- Source: `Extractor::clone_ctx` (lines 278-304).  `backendClone` is the
outcome of the bridge `clone` call (the address it produced, or a message). -/
def clone_ctx (base_ctx : MemAddress) (backendClone : Except String MemAddress) :
    Except String MemAddress :=
  if base_ctx = 0 then .error "Base context handle is null"
  else
    match backendClone with
    | .error e => .error ("Failed to clone context: " ++ e)
    | .ok ctx => if ctx = 0 then .error "Cloned context is null" else .ok ctx

/-- Source: `Extractor::clone_doc` (lines 306-327). -/
def clone_doc (backendCloneDoc : Except String MemAddress) : Except String MemAddress :=
  match backendCloneDoc with
  | .error e => .error ("Failed to clone document: " ++ e)
  | .ok doc => if doc = 0 then .error "Cloned document is null" else .ok doc

/-- Outcome of one iteration of the `spawn_tasks` loop for one page:
the task spawned (if both clones succeeded), the best-effort error reports
sent to the result sink, and the context addresses released. -/
structure SpawnOne where
  task : Option (MemAddress × MemAddress)
  reports : List PageRenderError
  cleanups : List MemAddress
deriving DecidableEq, Repr

/-- One iteration of the loop body of `Extractor::spawn_tasks`
(source lines 580-648): clone the context, then the document; on a
context-clone failure report `Unexpected` and skip; on a document-clone
failure release the fresh context, report `Unexpected`, and skip;
otherwise hand both addresses to `spawn_page`. -/
def spawn_one (base_ctx : MemAddress) (ctxRes docRes : Except String MemAddress) : SpawnOne :=
  match clone_ctx base_ctx ctxRes with
  | .error e => ⟨none, [.Unexpected e], []⟩
  | .ok ctx =>
    match clone_doc docRes with
    | .error e => ⟨none, [.Unexpected e], [ctx]⟩
    | .ok doc => ⟨some (ctx, doc), [], []⟩

/-- Aggregate result of one `spawn_tasks` call. -/
structure SpawnResult where
  pages_spawned : Nat
  spawned : List (Nat × MemAddress × MemAddress)
  reports : List PageRenderError
  cleanups : List MemAddress
deriving DecidableEq, Repr

/-- The `for _ in 0..batch_count` loop of `Extractor::spawn_tasks`
(source lines 570-649): `n` iterations remain, `sc` is `pages_spawned`;
the loop returns early once `sc` reaches `page_count`.  `ec`/`ed` give the
backend clone outcomes per page index. -/
def spawn_loop (base_ctx : MemAddress) (ec ed : Nat → Except String MemAddress)
    (page_count : Nat) : Nat → Nat → SpawnResult
  | 0, sc => ⟨sc, [], [], []⟩
  | n + 1, sc =>
    if sc < page_count then
      let one := spawn_one base_ctx (ec sc) (ed sc)
      let rest := spawn_loop base_ctx ec ed page_count n (sc + 1)
      { pages_spawned := rest.pages_spawned
        spawned :=
          match one.task with
          | some (c, d) => (sc, c, d) :: rest.spawned
          | none => rest.spawned
        reports := one.reports ++ rest.reports
        cleanups := one.cleanups ++ rest.cleanups }
    else ⟨sc, [], [], []⟩

/-- Source: `const BATCH_SIZE: i32 = 4` in `Extractor::spawn_tasks`. -/
def BATCH_SIZE : Nat := 4

/-- Source: `Extractor::spawn_tasks` (lines 548-650): run the batch loop for
`min(available_slots, BATCH_SIZE)` iterations. -/
def spawn_tasks (base_ctx : MemAddress) (ec ed : Nat → Except String MemAddress)
    (page_count poolLen maxConc sc : Nat) : SpawnResult :=
  spawn_loop base_ctx ec ed page_count (min (maxConc - poolLen) BATCH_SIZE) sc

/-- Source: `Extractor::calc_max_concurrent_pages` (lines 263-276), as a pure
function of `available_parallelism` (`none` = undetectable). -/
def calc_max_concurrent_pages (parallelism : Option Nat) : Nat :=
  match parallelism with
  | none => 4
  | some cores =>
    if 1 ≤ cores ∧ cores ≤ 4 then cores * 2
    else if 5 ≤ cores ∧ cores ≤ 8 then cores + 2
    else if 9 ≤ cores ∧ cores ≤ 16 then cores
    else min (cores * 3 / 4) 32

/-- Join outcome of the worker unit as seen by `spawn_page`:
`Except String _` models a `JoinError` (panic) with its message, the inner
value is the worker result from `iter_page`. -/
abbrev WorkerJoin := Except String (Except PageRenderError Unit)

/-- The reporting branch of `Extractor::spawn_page` (source lines 372-388):
messages sent to the result sink for one completed worker unit.  Success
sends nothing; a worker error or a panic sends exactly one error. -/
def spawn_page_report (wr : WorkerJoin) : List (Except PageRenderError Unit) :=
  match wr with
  | .ok (.ok _) => []
  | .ok (.error e) => [.error e]
  | .error joinMsg => [.error (.Unexpected ("Task panicked: " ++ joinMsg))]

/-- Join result of a pool task as seen by `handle_task_completion`. -/
inductive TaskJoinResult
  | ok
  | cancelled
  | failed (msg : String)
deriving DecidableEq, Repr

/-- Source: `Extractor::handle_task_completion` (lines 521-546): only a clean
completion advances the progress counter; no join result stops the loop. -/
def handle_task_completion (pages_completed : Nat) : TaskJoinResult → Nat
  | .ok => pages_completed + 1
  | .cancelled => pages_completed
  | .failed _ => pages_completed

/-! ## The orchestrator loop of `Extractor::iter_pages` (source lines 174-261)

The `select!` loop is modelled as a step function on an explicit state,
driven by one event per fired select branch.  The nested pause loop
(lines 210-230) reads only control messages, so while `mode = paused`
only control events are valid. -/

/-- Whether the loop is in its main state or inside the nested pause loop. -/
inductive Mode
  | running
  | paused
deriving DecidableEq, Repr

/-- Loop bookkeeping: `spawned` is `pages_spawned`, `active` is `pool.len()`. -/
structure OrchState where
  spawned : Nat
  active : Nat
  mode : Mode
deriving DecidableEq, Repr

/-- How a run of the loop ended: by the all-pages-done break (`completed`)
or by a `Stop`/closed-while-paused abort (`aborted`). -/
inductive Outcome
  | completed
  | aborted
deriving DecidableEq, Repr

/-- One fired branch of the `select!`: a control-channel receive
(`none` = channel closed), the capacity branch spawning a batch,
one task completing, or the terminal all-done branch. -/
inductive LoopEvent
  | ctrl (m : Option ControlMessage)
  | schedule
  | complete
  | finish
deriving DecidableEq, Repr

/-- Parameters fixed for a run: the base context address, the backend
clone outcomes per page, the page count, and the concurrency bound. -/
structure OrchParams where
  base_ctx : MemAddress
  ec : Nat → Except String MemAddress
  ed : Nat → Except String MemAddress
  page_count : Nat
  maxConc : Nat

/-- Result of one loop step: continue with a new state (emitting the page
indices claimed by a batch) or leave the loop with an outcome. -/
inductive StepRes
  | cont (s : OrchState) (sched : List Nat)
  | done (o : Outcome)
deriving DecidableEq, Repr

/-- One step of the `iter_pages` loop.  `none` marks an event whose select
guard is false (it cannot fire there).  Control handling follows lines
200-239; the schedule branch (lines 242-245) fires only while
`pages_spawned < page_count` and `pool.len() < max_concurrent_pages`;
the completion branch (248-250) only while the pool is non-empty; the
terminal branch (253-256) only when all pages are spawned and drained. -/
def orchStep (P : OrchParams) (s : OrchState) : LoopEvent → Option StepRes
  | .ctrl m =>
    match s.mode, m with
    | .running, some .Stop => some (.done .aborted)
    | .running, some .Pause => some (.cont { s with mode := .paused } [])
    | .running, some .Resume => some (.cont s [])
    | .running, none => some (.cont s [])
    | .paused, some .Stop => some (.done .aborted)
    | .paused, some .Pause => some (.cont s [])
    | .paused, some .Resume => some (.cont { s with mode := .running } [])
    | .paused, none => some (.done .aborted)
  | .schedule =>
    if s.mode = .running ∧ s.spawned < P.page_count ∧ s.active < P.maxConc then
      let r := spawn_tasks P.base_ctx P.ec P.ed P.page_count s.active P.maxConc s.spawned
      some (.cont
        { s with spawned := r.pages_spawned, active := s.active + r.spawned.length }
        (List.range' s.spawned (r.pages_spawned - s.spawned)))
    else none
  | .complete =>
    if s.mode = .running ∧ 0 < s.active then
      some (.cont { s with active := s.active - 1 } [])
    else none
  | .finish =>
    if s.mode = .running ∧ P.page_count ≤ s.spawned ∧ s.active = 0 then
      some (.done .completed)
    else none

/-- Initial state of the loop (`pages_spawned = 0`, empty pool). -/
def initState : OrchState := ⟨0, 0, Mode.running⟩

/-- Run the loop over a list of fired events: accumulate the scheduled page
indices; stop at the first terminating step, ignoring later events (the
Rust loop has returned).  The final component is the state at exit (for a
terminating step, the state in which it fired). -/
def runOrch (P : OrchParams) : OrchState → List LoopEvent →
    Option (List Nat × Option Outcome × OrchState)
  | s, [] => some ([], none, s)
  | s, e :: es =>
    match orchStep P s e with
    | none => none
    | some (.done o) => some ([], some o, s)
    | some (.cont s1 sched) =>
      match runOrch P s1 es with
      | none => none
      | some (pages, o, sf) => some (sched ++ pages, o, sf)

/-- Categories of the specification's error taxonomy (spec section 7).
This definition follows the words of the spec, not the source, so that the
source error type can be compared against the taxonomy the spec claims. -/
inductive SpecErrorCategory
  | InitializationFailure
  | InvalidContextHandle
  | NullBufferPassed
  | PageDoesNotExist
  | PixmapCreationFailure
  | RenderFailure
  | CorruptionDetected
  | CloneContextFailure
  | CloneDocumentFailure
  | TaskPanicked
  | Unexpected
deriving DecidableEq, Repr

/-- The category a source error value belongs to: each `PageRenderError`
constructor maps to the spec category of the same meaning.  The source type
has no constructor for the corruption, clone-failure or task-panic
categories, so no value maps to them. -/
def categoryOf : PageRenderError → SpecErrorCategory
  | .InvalidContextHandle => .InvalidContextHandle
  | .PassedNullptrToBuffer => .NullBufferPassed
  | .PageDoesNotExist => .PageDoesNotExist
  | .FailedToCreatePixMap _ => .PixmapCreationFailure
  | .RenderError _ => .RenderFailure
  | .Unexpected _ => .Unexpected

/-! ## Helper lemmas -/

/-- Counting lemma for the batch loop: the loop consumes exactly
`min n (page_count - sc)` page indices and spawns at most that many tasks. -/
theorem spawn_loop_pages (base : MemAddress) (ec ed : Nat → Except String MemAddress)
    (pc : Nat) : ∀ n sc,
    (spawn_loop base ec ed pc n sc).pages_spawned = sc + min n (pc - sc) ∧
    (spawn_loop base ec ed pc n sc).spawned.length ≤ min n (pc - sc) := by
  intro n
  induction n with
  | zero => intro sc; simp [spawn_loop]
  | succ n ih =>
    intro sc
    by_cases h : sc < pc
    · obtain ⟨h1, h2⟩ := ih (sc + 1)
      simp only [spawn_loop, if_pos h]
      constructor
      · rw [h1]; omega
      · cases htask : (spawn_one base (ec sc) (ed sc)).task with
        | none => simp only [htask]; omega
        | some cd =>
          obtain ⟨c, d⟩ := cd
          simp only [htask, List.length_cons]
          omega
    · have hz : pc - sc = 0 := by omega
      simp [spawn_loop, if_neg h, hz]

/-- When every page's clone pair succeeds, the batch loop spawns exactly
one task per consumed page index and makes no reports or cleanups. -/
theorem spawn_loop_allok (base : MemAddress) (ec ed : Nat → Except String MemAddress)
    (pc : Nat) (hok : ∀ p, (spawn_one base (ec p) (ed p)).task.isSome = true) :
    ∀ n sc, (spawn_loop base ec ed pc n sc).spawned.length = min n (pc - sc) := by
  intro n
  induction n with
  | zero => intro sc; simp [spawn_loop]
  | succ n ih =>
    intro sc
    by_cases h : sc < pc
    · have h1 := ih (sc + 1)
      simp only [spawn_loop, if_pos h]
      cases htask : (spawn_one base (ec sc) (ed sc)).task with
      | none => exact absurd (congrArg Option.isSome htask) (by simp [hok sc])
      | some cd =>
        obtain ⟨c, d⟩ := cd
        simp only [htask, List.length_cons]
        omega
    · have hz : pc - sc = 0 := by omega
      simp [spawn_loop, if_neg h, hz]

/-- A loop step that terminates the loop is either an abort, or the terminal
all-done branch, which requires all pages spawned and an empty pool. -/
theorem orchStep_done (P : OrchParams) (s : OrchState) (e : LoopEvent) (o : Outcome)
    (h : orchStep P s e = some (StepRes.done o)) :
    o = Outcome.aborted ∨
    (o = Outcome.completed ∧ P.page_count ≤ s.spawned ∧ s.active = 0) := by
  cases e with
  | ctrl m =>
    left
    rcases m with _ | m1
    · cases hm : s.mode <;> simp [orchStep, hm] at h <;> simp_all
    · cases m1 <;> cases hm : s.mode <;> simp [orchStep, hm] at h <;> simp_all
  | schedule =>
    simp only [orchStep] at h
    split at h <;> simp at h
  | complete =>
    simp only [orchStep] at h
    split at h <;> simp at h
  | finish =>
    simp only [orchStep] at h
    split at h
    · rename_i hg
      simp only [Option.some.injEq, StepRes.done.injEq] at h
      exact Or.inr ⟨h.symm, hg.2.1, hg.2.2⟩
    · simp at h

/-- A loop step that continues the loop preserves the scheduling invariants:
the emitted batch is the contiguous index range it claims, at most
`BATCH_SIZE` long, and the pool stays within the concurrency bound. -/
theorem orchStep_cont (P : OrchParams) (s : OrchState) (e : LoopEvent)
    (s1 : OrchState) (sched : List Nat)
    (h : orchStep P s e = some (StepRes.cont s1 sched))
    (h1 : s.spawned ≤ P.page_count) (h2 : s.active ≤ P.maxConc) :
    sched = List.range' s.spawned (s1.spawned - s.spawned) ∧
    s.spawned ≤ s1.spawned ∧ s1.spawned ≤ P.page_count ∧ s1.active ≤ P.maxConc ∧
    s1.spawned - s.spawned ≤ BATCH_SIZE := by
  cases e with
  | ctrl m =>
    have hout : s1.spawned = s.spawned ∧ s1.active = s.active ∧ sched = [] := by
      rcases m with _ | m1
      · cases hm : s.mode <;> simp [orchStep, hm] at h <;>
          (obtain ⟨h4, h5⟩ := h; rw [← h4, h5]; simp)
      · cases m1 <;> cases hm : s.mode <;> simp [orchStep, hm] at h <;>
          (obtain ⟨h4, h5⟩ := h; rw [← h4, h5]; simp)
    obtain ⟨ha, hb, hc⟩ := hout
    rw [ha, hb, hc]
    simp [BATCH_SIZE]
    omega
  | schedule =>
    simp only [orchStep] at h
    split at h
    · rename_i hg
      obtain ⟨hm, hsp, hac⟩ := hg
      obtain ⟨hcount, hlen⟩ := spawn_loop_pages P.base_ctx P.ec P.ed P.page_count
        (min (P.maxConc - s.active) BATCH_SIZE) s.spawned
      simp only [Option.some.injEq, StepRes.cont.injEq] at h
      obtain ⟨hs1, hsched⟩ := h
      rw [← hs1]
      simp only [spawn_tasks] at hcount hlen ⊢
      refine ⟨hsched.symm, by omega, by omega, by simp [BATCH_SIZE] at *; omega,
        by simp [BATCH_SIZE] at *; omega⟩
    · simp at h
  | complete =>
    simp only [orchStep] at h
    split at h
    · simp only [Option.some.injEq, StepRes.cont.injEq] at h
      obtain ⟨hs1, hsched⟩ := h
      rw [← hs1, hsched.symm]
      simp [BATCH_SIZE]
      omega
    · simp at h
  | finish =>
    simp only [orchStep] at h
    split at h <;> simp at h

/-- Two adjacent contiguous index ranges glue into one. -/
theorem range'_glue (a b c : Nat) (hab : a ≤ b) (hbc : b ≤ c) :
    List.range' a (b - a) ++ List.range' b (c - b) = List.range' a (c - a) := by
  have h1 : b = a + (b - a) := by omega
  calc List.range' a (b - a) ++ List.range' b (c - b)
      = List.range' a (b - a) ++ List.range' (a + (b - a)) (c - b) := by rw [← h1]
    _ = List.range' a ((c - b) + (b - a)) := List.range'_append_1 _ _ _
    _ = List.range' a (c - a) := by congr 1; omega

/-- Trace characterization of the loop: along any valid run the scheduled
pages are exactly the contiguous range from the initial to the final
`pages_spawned`, the spawn counter never passes `page_count`, the pool
never exceeds the concurrency bound, and a `completed` outcome implies
every page was spawned. -/
theorem runOrch_trace (P : OrchParams) : ∀ (events : List LoopEvent)
    (s : OrchState) (pages : List Nat) (o : Option Outcome) (sf : OrchState),
    s.spawned ≤ P.page_count → s.active ≤ P.maxConc →
    runOrch P s events = some (pages, o, sf) →
    pages = List.range' s.spawned (sf.spawned - s.spawned) ∧
    s.spawned ≤ sf.spawned ∧ sf.spawned ≤ P.page_count ∧ sf.active ≤ P.maxConc ∧
    (o = some Outcome.completed → P.page_count ≤ sf.spawned ∧ sf.active = 0) := by
  intro events
  induction events with
  | nil =>
    intro s pages o sf h1 h2 h3
    simp only [runOrch, Option.some.injEq, Prod.mk.injEq] at h3
    obtain ⟨rfl, rfl, rfl⟩ := h3
    simp [h1, h2]
  | cons e es ih =>
    intro s pages o sf h1 h2 h3
    cases he : orchStep P s e with
    | none => simp only [runOrch, he] at h3; exact (Option.noConfusion h3)
    | some r =>
      simp only [runOrch, he] at h3
      cases r with
      | done o1 =>
        simp only [Option.some.injEq, Prod.mk.injEq] at h3
        obtain ⟨rfl, rfl, rfl⟩ := h3
        refine ⟨by simp, le_refl _, h1, h2, ?_⟩
        intro hco
        rcases orchStep_done P s e o1 he with hab | ⟨_, hc1, hc2⟩
        · simp [hab] at hco
        · exact ⟨hc1, hc2⟩
      | cont s1 sched =>
        cases hrun : runOrch P s1 es with
        | none => simp only [hrun] at h3; exact (Option.noConfusion h3)
        | some t =>
          obtain ⟨pages1, o1, sf1⟩ := t
          simp only [hrun, Option.some.injEq, Prod.mk.injEq] at h3
          obtain ⟨rfl, rfl, rfl⟩ := h3
          obtain ⟨hsched, hle, hpc, hmc, _⟩ := orchStep_cont P s e s1 sched he h1 h2
          obtain ⟨hp1, hle1, hpc1, hmc1, hcomp1⟩ := ih s1 pages1 o1 sf1 hpc hmc hrun
          refine ⟨?_, by omega, hpc1, hmc1, hcomp1⟩
          rw [hsched, hp1]
          exact range'_glue s.spawned s1.spawned sf1.spawned hle hle1

/-- Composition of loop runs: a run that has not yet terminated extends on
the left of any continuation. -/
theorem runOrch_append (P : OrchParams) : ∀ (es1 es2 : List LoopEvent)
    (s : OrchState) (pages : List Nat) (sf : OrchState),
    runOrch P s es1 = some (pages, none, sf) →
    runOrch P s (es1 ++ es2) =
      match runOrch P sf es2 with
      | none => none
      | some (pages2, o, sf2) => some (pages ++ pages2, o, sf2) := by
  intro es1
  induction es1 with
  | nil =>
    intro es2 s pages sf h
    simp only [runOrch, Option.some.injEq, Prod.mk.injEq, true_and] at h
    obtain ⟨rfl, rfl⟩ := h
    simp only [List.nil_append]
    cases hrun : runOrch P s es2 with
    | none => simp [hrun]
    | some t => obtain ⟨p2, o2, sf2⟩ := t; simp [hrun]
  | cons e es ih =>
    intro es2 s pages sf h
    cases he : orchStep P s e with
    | none => simp only [runOrch, he] at h; exact (Option.noConfusion h)
    | some r =>
      simp only [runOrch, he] at h
      cases r with
      | done o1 =>
        simp only [Option.some.injEq, Prod.mk.injEq] at h
        exact (Option.noConfusion h.2.1)
      | cont s1 sched =>
        cases hrun : runOrch P s1 es with
        | none => simp only [hrun] at h; exact (Option.noConfusion h)
        | some t =>
          obtain ⟨pages1, o1, sf1⟩ := t
          simp only [hrun, Option.some.injEq, Prod.mk.injEq] at h
          obtain ⟨rfl, rfl, rfl⟩ := h
          have ih1 := ih es2 s1 pages1 sf1 hrun
          cases hrun2 : runOrch P sf1 es2 with
          | none =>
            simp only [hrun2] at ih1
            simp only [List.cons_append, runOrch, he, List.append_eq, ih1, hrun2]
          | some t2 =>
            obtain ⟨p2, o2, sf2⟩ := t2
            simp only [hrun2] at ih1
            simp only [List.cons_append, runOrch, he, List.append_eq, ih1, hrun2]
            simp [List.append_assoc]

/-- Draining the pool: a block of `complete` events empties the pool and
scheduling state is otherwise untouched. -/
theorem runOrch_completes (P : OrchParams) : ∀ (k sp : Nat) (es : List LoopEvent),
    runOrch P ⟨sp, k, Mode.running⟩ (List.replicate k LoopEvent.complete ++ es) =
      runOrch P ⟨sp, 0, Mode.running⟩ es := by
  intro k
  induction k with
  | zero => intro sp es; simp
  | succ k ih =>
    intro sp es
    have hstep : orchStep P ⟨sp, k + 1, Mode.running⟩ LoopEvent.complete =
        some (StepRes.cont ⟨sp, k, Mode.running⟩ []) := by
      simp [orchStep]
    simp only [List.replicate_succ, List.cons_append, runOrch, hstep, List.append_eq,
      ih sp es]
    cases runOrch P ⟨sp, 0, Mode.running⟩ es with
    | none => simp
    | some t => obtain ⟨p, o, sf⟩ := t; simp

/-- An event list that drains the run to natural completion from a state
with an empty pool: schedule a batch, drain its tasks, repeat, and finally
fire the terminal branch. -/
def drainDriver (P : OrchParams) : Nat → Nat → List LoopEvent
  | 0, _ => [LoopEvent.finish]
  | fuel + 1, sc =>
    if sc < P.page_count then
      let r := spawn_tasks P.base_ctx P.ec P.ed P.page_count 0 P.maxConc sc
      LoopEvent.schedule ::
        (List.replicate r.spawned.length LoopEvent.complete ++
          drainDriver P fuel r.pages_spawned)
    else [LoopEvent.finish]

/-- When every clone pair succeeds and the concurrency bound is positive,
the drain driver runs the loop from any empty-pool state to natural
completion, scheduling exactly the remaining pages in order. -/
theorem drainDriver_runs (P : OrchParams) (hmc : 1 ≤ P.maxConc)
    (hok : ∀ p, (spawn_one P.base_ctx (P.ec p) (P.ed p)).task.isSome = true) :
    ∀ (fuel sc : Nat), sc ≤ P.page_count → P.page_count ≤ sc + fuel →
    runOrch P ⟨sc, 0, Mode.running⟩ (drainDriver P fuel sc) =
      some (List.range' sc (P.page_count - sc), some Outcome.completed,
        ⟨P.page_count, 0, Mode.running⟩) := by
  intro fuel
  induction fuel with
  | zero =>
    intro sc hle hge
    have hsc : sc = P.page_count := by omega
    rw [hsc]
    have hstep : orchStep P ⟨P.page_count, 0, Mode.running⟩ LoopEvent.finish =
        some (StepRes.done Outcome.completed) := by
      simp [orchStep]
    simp [drainDriver, runOrch, hstep]
  | succ fuel ih =>
    intro sc hle hge
    by_cases h : sc < P.page_count
    · have hcount := (spawn_loop_pages P.base_ctx P.ec P.ed P.page_count
        (min (P.maxConc - 0) BATCH_SIZE) sc).1
      have hlen := spawn_loop_allok P.base_ctx P.ec P.ed P.page_count hok
        (min (P.maxConc - 0) BATCH_SIZE) sc
      set r := spawn_tasks P.base_ctx P.ec P.ed P.page_count 0 P.maxConc sc with hr
      have hcount2 : r.pages_spawned = sc + min (min (P.maxConc - 0) BATCH_SIZE)
          (P.page_count - sc) := hcount
      have hlen2 : r.spawned.length = min (min (P.maxConc - 0) BATCH_SIZE)
          (P.page_count - sc) := hlen
      have hkpos : 1 ≤ min (min (P.maxConc - 0) BATCH_SIZE) (P.page_count - sc) := by
        simp only [BATCH_SIZE]
        omega
      have hmm : 0 < P.maxConc := by omega
      have hstep : orchStep P ⟨sc, 0, Mode.running⟩ LoopEvent.schedule =
          some (StepRes.cont ⟨r.pages_spawned, 0 + r.spawned.length, Mode.running⟩
            (List.range' sc (r.pages_spawned - sc))) := by
        simp [orchStep, h, hmm, ← hr]
      have hdrain := runOrch_completes P r.spawned.length r.pages_spawned
        (drainDriver P fuel r.pages_spawned)
      have hih := ih r.pages_spawned (by omega) (by omega)
      simp only [drainDriver, if_pos h]
      simp only [runOrch, ← hr, hstep, Nat.zero_add, hdrain, hih]
      have hglue : List.range' sc (r.pages_spawned - sc) ++
          List.range' r.pages_spawned (P.page_count - r.pages_spawned) =
          List.range' sc (P.page_count - sc) :=
        range'_glue sc r.pages_spawned P.page_count (by omega) (by omega)
      rw [hglue]
    · have hsc : sc = P.page_count := by omega
      rw [hsc]
      have hstep : orchStep P ⟨P.page_count, 0, Mode.running⟩ LoopEvent.finish =
          some (StepRes.done Outcome.completed) := by
        simp [orchStep]
      simp [drainDriver, runOrch, hstep]

end PdfStruct

namespace PdfStruct

/-! ## Claim theorems -/

/-- Claim C8: `calc_max_concurrent_pages` is a pure function of the detected
core count with cores in 1..4 giving cores*2, 5..8 giving cores+2, 9..16
giving cores, above 16 giving min(cores*3/4, 32), constant 4 when
parallelism is undetectable; in particular 2 gives 4, 6 gives 8, 12 gives
12 and 64 gives 32. -/
theorem C8_max_concurrency :
    (∀ cores, 1 ≤ cores → cores ≤ 4 → calc_max_concurrent_pages (some cores) = cores * 2) ∧
    (∀ cores, 5 ≤ cores → cores ≤ 8 → calc_max_concurrent_pages (some cores) = cores + 2) ∧
    (∀ cores, 9 ≤ cores → cores ≤ 16 → calc_max_concurrent_pages (some cores) = cores) ∧
    (∀ cores, 16 < cores → calc_max_concurrent_pages (some cores) = min (cores * 3 / 4) 32) ∧
    calc_max_concurrent_pages none = 4 ∧
    calc_max_concurrent_pages (some 2) = 4 ∧
    calc_max_concurrent_pages (some 6) = 8 ∧
    calc_max_concurrent_pages (some 12) = 12 ∧
    calc_max_concurrent_pages (some 64) = 32 := by
  refine ⟨?_, ?_, ?_, ?_, rfl, rfl, rfl, rfl, rfl⟩
  · intro cores h1 h2
    simp only [calc_max_concurrent_pages]
    rw [if_pos ⟨h1, h2⟩]
  · intro cores h1 h2
    simp only [calc_max_concurrent_pages]
    rw [if_neg (by omega), if_pos ⟨h1, h2⟩]
  · intro cores h1 h2
    simp only [calc_max_concurrent_pages]
    rw [if_neg (by omega), if_neg (by omega), if_pos ⟨h1, h2⟩]
  · intro cores h1
    simp only [calc_max_concurrent_pages]
    rw [if_neg (by omega), if_neg (by omega), if_neg (by omega)]

/-- Witness for C8 at concrete core counts, one per branch. -/
theorem C8_max_concurrency_witness :
    calc_max_concurrent_pages (some 3) = 3 * 2 ∧
    calc_max_concurrent_pages (some 7) = 7 + 2 ∧
    calc_max_concurrent_pages (some 10) = 10 ∧
    calc_max_concurrent_pages (some 20) = min (20 * 3 / 4) 32 :=
  ⟨C8_max_concurrency.1 3 (by decide) (by decide),
   C8_max_concurrency.2.1 7 (by decide) (by decide),
   C8_max_concurrency.2.2.1 10 (by decide) (by decide),
   C8_max_concurrency.2.2.2.1 20 (by decide)⟩

/-- Claim C1: for a handle pair whose two clones both succeeded (hence both
addresses are non-null), the worker unit releases the pair exactly once on
the success path and on the render-failure path; for a partially
constructed pair (context cloned, document clone failed) exactly the
context is released, once. -/
theorem C1_handle_release :
    (∀ (page ctx doc : Nat) (rr : Except String Unit), ctx ≠ 0 → doc ≠ 0 →
      cleanupCount (iter_page page ctx doc rr).2 = 1) ∧
    (∀ (base : MemAddress) (cr dr : Except String MemAddress) (c : MemAddress) (e : String),
      clone_ctx base cr = .ok c → clone_doc dr = .error e →
      spawn_one base cr dr = ⟨none, [PageRenderError.Unexpected e], [c]⟩) := by
  constructor
  · intro page ctx doc rr hc hd
    unfold iter_page iter_page_body
    rw [if_neg hc, if_neg hd]
    cases rr with
    | error msg =>
      by_cases hm : isCorruptionMsg msg <;> simp [hm, cleanupCount]
    | ok u =>
      by_cases hp : page % 10 = 0 <;> simp [hp, cleanupCount]
  · intro base cr dr c e h1 h2
    unfold spawn_one
    rw [h1, h2]

/-- Witness for C1: a successful render, a failing render, and a failing
document clone, all at concrete inputs. -/
theorem C1_handle_release_witness :
    cleanupCount (iter_page 3 1 2 (Except.ok ())).2 = 1 ∧
    cleanupCount (iter_page 3 1 2 (Except.error "Failed to render page 3")).2 = 1 ∧
    spawn_one 1 (Except.ok 5) (Except.error "boom") =
      ⟨none, [PageRenderError.Unexpected "Failed to clone document: boom"], [5]⟩ :=
  ⟨C1_handle_release.1 3 1 2 (Except.ok ()) (by decide) (by decide),
   C1_handle_release.1 3 1 2 (Except.error "Failed to render page 3") (by decide) (by decide),
   C1_handle_release.2 1 (Except.ok 5) (Except.error "boom") 5
     "Failed to clone document: boom" rfl rfl⟩

/-- Claim C9: for a page whose worker unit runs (valid handles), a cache
flush is requested exactly once, scoped to that page's cloned context,
when the unit completes successfully and the page index is a multiple of
10; it is never requested when the index is not a multiple of 10. -/
theorem C9_cache_flush (page ctx doc : Nat) (rr : Except String Unit)
    (hc : ctx ≠ 0) (hd : doc ≠ 0) :
    ((iter_page page ctx doc rr).1 = .ok () →
      flushCount (iter_page page ctx doc rr).2 = if page % 10 = 0 then 1 else 0) ∧
    (page % 10 ≠ 0 → flushCount (iter_page page ctx doc rr).2 = 0) ∧
    ((iter_page page ctx doc rr).1 = .ok () → page % 10 = 0 →
      (iter_page page ctx doc rr).2.countP
        (fun c => decide (c = BackendCall.flushCache ctx)) = 1) := by
  unfold iter_page iter_page_body
  rw [if_neg hc, if_neg hd]
  cases rr with
  | error msg =>
    by_cases hm : isCorruptionMsg msg <;>
      simp [hm, flushCount]
  | ok u =>
    by_cases hp : page % 10 = 0 <;>
      simp [hp, flushCount]

/-- Witness for C9: pages 10 (flushed once, scoped to its context) and 7
(never flushed), on the success and failure paths. -/
theorem C9_cache_flush_witness :
    flushCount (iter_page 10 6 2 (Except.ok ())).2 = 1 ∧
    flushCount (iter_page 7 6 2 (Except.ok ())).2 = 0 ∧
    flushCount (iter_page 7 6 2 (Except.error "Failed to render page 7")).2 = 0 ∧
    (iter_page 10 6 2 (Except.ok ())).2.countP
      (fun c => decide (c = BackendCall.flushCache 6)) = 1 := by
  refine ⟨?_, ?_, ?_, ?_⟩
  · have h := (C9_cache_flush 10 6 2 (Except.ok ()) (by decide) (by decide)).1 rfl
    simpa using h
  · exact (C9_cache_flush 7 6 2 (Except.ok ()) (by decide) (by decide)).2.1 (by decide)
  · exact (C9_cache_flush 7 6 2 (Except.error "Failed to render page 7")
      (by decide) (by decide)).2.1 (by decide)
  · exact (C9_cache_flush 10 6 2 (Except.ok ()) (by decide) (by decide)).2.2
      rfl (by decide)

/-- Claim C10: `clone_ctx` and `clone_doc` only return non-null addresses
(they reject a null clone), every task the batch loop spawns carries
non-null addresses, and under that precondition the worker's validation
branches are not taken: `iter_page` runs its post-validation body and
never produces `InvalidContextHandle`. -/
theorem C10_nonnull_handles :
    (∀ (base : MemAddress) (r : Except String MemAddress) (a : MemAddress),
      clone_ctx base r = .ok a → a ≠ 0) ∧
    (∀ (r : Except String MemAddress) (d : MemAddress), clone_doc r = .ok d → d ≠ 0) ∧
    (∀ (base : MemAddress) (cr dr : Except String MemAddress) (c d : MemAddress),
      (spawn_one base cr dr).task = some (c, d) → c ≠ 0 ∧ d ≠ 0) ∧
    (∀ (base : MemAddress) (ec ed : Nat → Except String MemAddress) (pc n sc p c d : Nat),
      (p, c, d) ∈ (spawn_loop base ec ed pc n sc).spawned → c ≠ 0 ∧ d ≠ 0) ∧
    (∀ (page ctx doc : Nat) (rr : Except String Unit), ctx ≠ 0 → doc ≠ 0 →
      iter_page page ctx doc rr = iter_page_body page ctx doc rr ∧
      (iter_page page ctx doc rr).1 ≠ .error PageRenderError.InvalidContextHandle) := by
  have hctx : ∀ (base : MemAddress) (r : Except String MemAddress) (a : MemAddress),
      clone_ctx base r = .ok a → a ≠ 0 := by
    intro base r a h
    by_cases hb : base = 0
    · simp only [clone_ctx, if_pos hb] at h
      exact (Except.noConfusion h)
    · cases r with
      | error e =>
        simp only [clone_ctx, if_neg hb] at h
        exact (Except.noConfusion h)
      | ok ctx =>
        by_cases hz : ctx = 0
        · simp only [clone_ctx, if_neg hb, if_pos hz] at h
          exact (Except.noConfusion h)
        · simp only [clone_ctx, if_neg hb, if_neg hz, Except.ok.injEq] at h
          rw [← h]
          exact hz
  have hdoc : ∀ (r : Except String MemAddress) (d : MemAddress),
      clone_doc r = .ok d → d ≠ 0 := by
    intro r d h
    cases r with
    | error e =>
      simp only [clone_doc] at h
      exact (Except.noConfusion h)
    | ok doc =>
      by_cases hz : doc = 0
      · simp only [clone_doc, if_pos hz] at h
        exact (Except.noConfusion h)
      · simp only [clone_doc, if_neg hz, Except.ok.injEq] at h
        rw [← h]
        exact hz
  have hone : ∀ (base : MemAddress) (cr dr : Except String MemAddress) (c d : MemAddress),
      (spawn_one base cr dr).task = some (c, d) → c ≠ 0 ∧ d ≠ 0 := by
    intro base cr dr c d h
    cases hcc : clone_ctx base cr with
    | error e =>
      simp only [spawn_one, hcc] at h
      exact (Option.noConfusion h)
    | ok ctx =>
      cases hdd : clone_doc dr with
      | error e =>
        simp only [spawn_one, hcc, hdd] at h
        exact (Option.noConfusion h)
      | ok doc =>
        simp only [spawn_one, hcc, hdd, Option.some.injEq, Prod.mk.injEq] at h
        obtain ⟨rfl, rfl⟩ := h
        exact ⟨hctx base cr ctx hcc, hdoc dr doc hdd⟩
  refine ⟨hctx, hdoc, hone, ?_, ?_⟩
  · intro base ec ed pc n
    induction n with
    | zero => intro sc p c d hmem; simp [spawn_loop] at hmem
    | succ n ih =>
      intro sc p c d hmem
      by_cases h : sc < pc
      · simp only [spawn_loop, if_pos h] at hmem
        cases htask : (spawn_one base (ec sc) (ed sc)).task with
        | none =>
          simp only [htask] at hmem
          exact ih (sc + 1) p c d hmem
        | some cd =>
          obtain ⟨c1, d1⟩ := cd
          simp only [htask] at hmem
          rcases List.mem_cons.mp hmem with heq | hmem2
          · simp only [Prod.mk.injEq] at heq
            obtain ⟨rfl, rfl, rfl⟩ := heq
            exact hone base (ec p) (ed p) _ _ htask
          · exact ih (sc + 1) p c d hmem2
      · simp [spawn_loop, if_neg h] at hmem
  · intro page ctx doc rr hc hd
    constructor
    · unfold iter_page
      rw [if_neg hc, if_neg hd]
    · unfold iter_page iter_page_body
      rw [if_neg hc, if_neg hd]
      cases rr with
      | error msg => by_cases hm : isCorruptionMsg msg <;> simp [hm]
      | ok u => simp

/-- Witness for C10 at concrete inputs: a successful clone pair, a spawned
batch, and a worker run with valid handles. -/
theorem C10_nonnull_handles_witness :
    ((5 : MemAddress) ≠ 0 ∧ (9 : MemAddress) ≠ 0) ∧
    ((3 : MemAddress) ≠ 0 ∧ (4 : MemAddress) ≠ 0) ∧
    (iter_page 0 5 9 (Except.ok ()) = iter_page_body 0 5 9 (Except.ok ()) ∧
      (iter_page 0 5 9 (Except.ok ())).1 ≠ .error PageRenderError.InvalidContextHandle) :=
  ⟨⟨C10_nonnull_handles.1 1 (Except.ok 5) 5 rfl,
    C10_nonnull_handles.2.1 (Except.ok 9) 9 rfl⟩,
   C10_nonnull_handles.2.2.2.1 1 (fun _ => Except.ok 3) (fun _ => Except.ok 4)
     2 1 0 0 3 4 (by decide),
   C10_nonnull_handles.2.2.2.2 0 5 9 (Except.ok ()) (by decide) (by decide)⟩

end PdfStruct

namespace PdfStruct

/-- Counterexample to claim C2: on a successful worker unit the reporting
branch of `spawn_page` sends nothing to the result sink, so 25 successful
pages put 0 outcomes on the sink, not 25. -/
theorem C2_success_reports_nothing :
    spawn_page_report (Except.ok (Except.ok ())) = [] ∧
    ((List.range 25).map fun _ => spawn_page_report (Except.ok (Except.ok ()))).flatten.length
      = 0 ∧
    (0 : Nat) ≠ 25 := by
  refine ⟨rfl, ?_, by decide⟩
  simp [spawn_page_report]

/-- Claim C2 (amended): for every completed worker unit, the sink receives
exactly one error outcome on a worker failure or a panic, and nothing on
success (success is signalled only through the page callback); a run of 25
all-successful pages therefore puts 0 outcomes on the sink. -/
theorem C2_outcome_reporting (wr : WorkerJoin) :
    (∀ u, wr = .ok (.ok u) → spawn_page_report wr = []) ∧
    (∀ e, wr = .ok (.error e) → spawn_page_report wr = [.error e]) ∧
    (∀ j, wr = .error j →
      spawn_page_report wr = [.error (.Unexpected ("Task panicked: " ++ j))]) ∧
    ((List.range 25).map fun _ => spawn_page_report (Except.ok (Except.ok ()))).flatten
      = [] := by
  refine ⟨?_, ?_, ?_, by simp [spawn_page_report]⟩
  · intro u h; rw [h]; rfl
  · intro e h; rw [h]; rfl
  · intro j h; rw [h]; rfl

/-- Witness for the amended C2 at concrete worker outcomes. -/
theorem C2_outcome_reporting_witness :
    spawn_page_report (Except.ok (Except.ok ())) = [] ∧
    spawn_page_report (Except.ok (Except.error PageRenderError.PageDoesNotExist)) =
      [.error PageRenderError.PageDoesNotExist] ∧
    spawn_page_report (Except.error "boom") =
      [.error (.Unexpected ("Task panicked: " ++ "boom"))] :=
  ⟨(C2_outcome_reporting (Except.ok (Except.ok ()))).1 () rfl,
   (C2_outcome_reporting (Except.ok (Except.error PageRenderError.PageDoesNotExist))).2.1
     PageRenderError.PageDoesNotExist rfl,
   (C2_outcome_reporting (Except.error "boom")).2.2.1 "boom" rfl⟩

/-- Counterexample to claim C3: a render failure containing "Document
corruption detected" at page 7 is delivered as the source type's
`Unexpected` constructor, which maps to the taxonomy's `Unexpected`
category, not to a distinct `CorruptionDetected` category — the source
error type has no such constructor. -/
theorem C3_corruption_not_distinct_variant :
    (iter_page 7 1 1 (Except.error "Document corruption detected")).1 =
      Except.error (PageRenderError.Unexpected
        "Document corruption detected at page 7: Document corruption detected") ∧
    categoryOf (PageRenderError.Unexpected
        "Document corruption detected at page 7: Document corruption detected") =
      SpecErrorCategory.Unexpected ∧
    SpecErrorCategory.Unexpected ≠ SpecErrorCategory.CorruptionDetected := by
  exact ⟨rfl, rfl, by decide⟩

/-- Claim C3 (amended): a render failure whose message contains "Document
corruption detected" yields, for page p, the outcome
`Unexpected ("Document corruption detected at page p: " ++ msg)` with the
pair released; the failure terminates only that page's unit — any other
page's unit with valid handles and a successful render still succeeds, and
a task completion never terminates the orchestrator loop. -/
theorem C3_corruption_classified_unexpected (page ctx doc : Nat) (msg : String)
    (hc : ctx ≠ 0) (hd : doc ≠ 0)
    (hm : strContains msg "Document corruption detected" = true) :
    (iter_page page ctx doc (Except.error msg)).1 =
      Except.error (PageRenderError.Unexpected
        ("Document corruption detected at page " ++ toString page ++ ": " ++ msg)) ∧
    cleanupCount (iter_page page ctx doc (Except.error msg)).2 = 1 ∧
    (∀ (q cq dq : Nat), cq ≠ 0 → dq ≠ 0 →
      (iter_page q cq dq (Except.ok ())).1 = Except.ok ()) ∧
    (∀ (P : OrchParams) (s : OrchState), s.mode = Mode.running → 0 < s.active →
      orchStep P s LoopEvent.complete =
        some (StepRes.cont { s with active := s.active - 1 } [])) := by
  have hcm : isCorruptionMsg msg = true := by
    simp [isCorruptionMsg, hm]
  refine ⟨?_, ?_, ?_, ?_⟩
  · unfold iter_page iter_page_body
    rw [if_neg hc, if_neg hd]
    simp [hcm]
  · unfold iter_page iter_page_body
    rw [if_neg hc, if_neg hd]
    simp [hcm, cleanupCount]
  · intro q cq dq hcq hdq
    unfold iter_page iter_page_body
    rw [if_neg hcq, if_neg hdq]
  · intro P s hmode hact
    simp [orchStep, hmode, hact]

/-- Witness for the amended C3 at page 7 with a concrete corruption
message. -/
theorem C3_corruption_classified_unexpected_witness :
    (iter_page 7 1 1 (Except.error "Document corruption detected")).1 =
      Except.error (PageRenderError.Unexpected
        ("Document corruption detected at page " ++ toString (7 : Nat) ++ ": " ++
          "Document corruption detected")) ∧
    cleanupCount (iter_page 7 1 1 (Except.error "Document corruption detected")).2 = 1 :=
  ⟨(C3_corruption_classified_unexpected 7 1 1 "Document corruption detected"
      (by decide) (by decide) rfl).1,
   (C3_corruption_classified_unexpected 7 1 1 "Document corruption detected"
      (by decide) (by decide) rfl).2.1⟩

/-- Counterexample to claim C6: a context-clone failure (and likewise a
document-clone failure) is reported through the source type's `Unexpected`
constructor, which maps to the taxonomy's `Unexpected` category — not to a
distinct `CloneContextFailure` or `CloneDocumentFailure` category, which
the source error type does not have. -/
theorem C6_clone_failure_not_distinct_variant :
    spawn_one 1 (Except.error "boom") (Except.ok 5) =
      ⟨none, [PageRenderError.Unexpected "Failed to clone context: boom"], []⟩ ∧
    categoryOf (PageRenderError.Unexpected "Failed to clone context: boom") =
      SpecErrorCategory.Unexpected ∧
    SpecErrorCategory.Unexpected ≠ SpecErrorCategory.CloneContextFailure ∧
    spawn_one 1 (Except.ok 3) (Except.error "boom") =
      ⟨none, [PageRenderError.Unexpected "Failed to clone document: boom"], [3]⟩ ∧
    SpecErrorCategory.Unexpected ≠ SpecErrorCategory.CloneDocumentFailure := by
  exact ⟨rfl, rfl, by decide, rfl, by decide⟩

/-- Claim C6 (amended): if the context clone fails for page p, no handle
pair exists, no task is spawned, nothing is released, and one best-effort
`Unexpected` report carrying the clone-failure message goes to the sink;
if the context clone succeeds and the document clone fails, the cloned
context is released exactly once, one `Unexpected` report goes to the
sink, and no task is spawned; in both cases the batch loop then proceeds
to the next page index. -/
theorem C6_clone_failure_handling (base : MemAddress)
    (cr dr : Except String MemAddress) :
    (∀ e, clone_ctx base cr = .error e →
      spawn_one base cr dr = ⟨none, [PageRenderError.Unexpected e], []⟩) ∧
    (∀ c e, clone_ctx base cr = .ok c → clone_doc dr = .error e →
      spawn_one base cr dr = ⟨none, [PageRenderError.Unexpected e], [c]⟩) ∧
    (∀ (ec ed : Nat → Except String MemAddress) (pc n sc : Nat), sc < pc →
      (spawn_one base (ec sc) (ed sc)).task = none →
      spawn_loop base ec ed pc (n + 1) sc =
        { spawn_loop base ec ed pc n (sc + 1) with
            reports := (spawn_one base (ec sc) (ed sc)).reports ++
              (spawn_loop base ec ed pc n (sc + 1)).reports
            cleanups := (spawn_one base (ec sc) (ed sc)).cleanups ++
              (spawn_loop base ec ed pc n (sc + 1)).cleanups }) := by
  refine ⟨?_, ?_, ?_⟩
  · intro e h
    unfold spawn_one
    rw [h]
  · intro c e h1 h2
    unfold spawn_one
    rw [h1, h2]
  · intro ec ed pc n sc hlt htask
    simp only [spawn_loop, if_pos hlt, htask]

/-- Witness for the amended C6 at concrete clone outcomes. -/
theorem C6_clone_failure_handling_witness :
    spawn_one 1 (Except.error "io fail") (Except.ok 5) =
      ⟨none, [PageRenderError.Unexpected "Failed to clone context: io fail"], []⟩ ∧
    spawn_one 1 (Except.ok 3) (Except.error "io fail") =
      ⟨none, [PageRenderError.Unexpected "Failed to clone document: io fail"], [3]⟩ ∧
    spawn_loop 1 (fun _ => Except.error "io fail") (fun _ => Except.ok 5) 2 1 0 =
      { spawn_loop 1 (fun _ => Except.error "io fail") (fun _ => Except.ok 5) 2 0 1 with
          reports := (spawn_one 1 (Except.error "io fail") (Except.ok 5)).reports ++
            (spawn_loop 1 (fun _ => Except.error "io fail") (fun _ => Except.ok 5) 2 0 1).reports
          cleanups := (spawn_one 1 (Except.error "io fail") (Except.ok 5)).cleanups ++
            (spawn_loop 1 (fun _ => Except.error "io fail") (fun _ => Except.ok 5) 2 0 1).cleanups } :=
  ⟨(C6_clone_failure_handling 1 (Except.error "io fail") (Except.ok 5)).1
     "Failed to clone context: io fail" rfl,
   (C6_clone_failure_handling 1 (Except.ok 3) (Except.error "io fail")).2.1 3
     "Failed to clone document: io fail" rfl rfl,
   (C6_clone_failure_handling 1 (Except.error "io fail") (Except.ok 5)).2.2
     (fun _ => Except.error "io fail") (fun _ => Except.ok 5) 2 0 0 (by decide) rfl⟩

end PdfStruct

namespace PdfStruct

/-- Claim C4: along any valid run of the loop from the initial state, the
scheduled pages are exactly the indices below the final spawn counter —
each scheduled exactly once, in strictly increasing order — the counter
never passes `page_count`, the pool never exceeds the concurrency bound,
a completed run scheduled exactly the indices in `[0, page_count)`, and
every firing of the schedule branch adds at most `BATCH_SIZE` tasks while
keeping the pool within the bound. -/
theorem C4_scheduling (P : OrchParams) (events : List LoopEvent) (pages : List Nat)
    (o : Option Outcome) (sf : OrchState)
    (h : runOrch P initState events = some (pages, o, sf)) :
    pages = List.range sf.spawned ∧
    sf.spawned ≤ P.page_count ∧
    sf.active ≤ P.maxConc ∧
    pages.Nodup ∧
    List.Sorted (· < ·) pages ∧
    (o = some Outcome.completed → pages = List.range P.page_count) ∧
    (∀ (s s1 : OrchState) (sched : List Nat),
      orchStep P s LoopEvent.schedule = some (StepRes.cont s1 sched) →
      sched.length ≤ BATCH_SIZE ∧ s1.active ≤ P.maxConc) := by
  obtain ⟨hp, hle, hpc, hmc, hcomp⟩ := runOrch_trace P events initState pages o sf
    (by simp [initState]) (by simp [initState]) h
  have hpages : pages = List.range sf.spawned := by
    rw [hp]
    simp [initState, List.range_eq_range']
  refine ⟨hpages, hpc, hmc, ?_, ?_, ?_, ?_⟩
  · rw [hpages]
    exact List.nodup_range _
  · rw [hpages]
    exact List.sorted_lt_range _
  · intro hco
    obtain ⟨h1, h2⟩ := hcomp hco
    rw [hpages]
    congr 1
    omega
  · intro s s1 sched hstep
    have hg : s.spawned < P.page_count ∧ s.active < P.maxConc := by
      simp only [orchStep] at hstep
      split at hstep
      · rename_i hcond
        exact ⟨hcond.2.1, hcond.2.2⟩
      · exact (Option.noConfusion hstep)
    obtain ⟨hsched, hle2, hpc2, hmc2, hbs⟩ :=
      orchStep_cont P s LoopEvent.schedule s1 sched hstep (by omega) (by omega)
    refine ⟨?_, hmc2⟩
    rw [hsched, List.length_range']
    exact hbs

/-- Witness for C4: a complete 6-page run with a concurrency bound of 4,
all clones succeeding. -/
theorem C4_scheduling_witness :
    ([0, 1, 2, 3, 4, 5] : List Nat) = List.range 6 ∧
    ([0, 1, 2, 3, 4, 5] : List Nat).Nodup ∧
    List.Sorted (· < ·) ([0, 1, 2, 3, 4, 5] : List Nat) ∧
    (some Outcome.completed = some Outcome.completed →
      ([0, 1, 2, 3, 4, 5] : List Nat) = List.range 6) := by
  have h := C4_scheduling ⟨1, fun _ => Except.ok 1, fun _ => Except.ok 1, 6, 4⟩
    [LoopEvent.schedule, LoopEvent.complete, LoopEvent.complete, LoopEvent.complete,
      LoopEvent.complete, LoopEvent.schedule, LoopEvent.complete, LoopEvent.complete,
      LoopEvent.finish]
    [0, 1, 2, 3, 4, 5] (some Outcome.completed) ⟨6, 0, Mode.running⟩ rfl
  exact ⟨h.1, h.2.2.2.1, h.2.2.2.2.1, h.2.2.2.2.2.1⟩

/-- Claim C5: whenever a `Stop` control message fires — in the running
state or while paused, with any number of active tasks — the loop
terminates at once with the aborted outcome: no later event is processed,
no further page is scheduled, and the final state (including its active
count) is whatever it was when `Stop` arrived. -/
theorem C5_stop_aborts_immediately (P : OrchParams) (es1 es2 : List LoopEvent)
    (pages : List Nat) (sf : OrchState)
    (h : runOrch P initState es1 = some (pages, none, sf)) :
    runOrch P initState
        (es1 ++ LoopEvent.ctrl (some ControlMessage.Stop) :: es2) =
      some (pages, some Outcome.aborted, sf) := by
  rw [runOrch_append P es1 (LoopEvent.ctrl (some ControlMessage.Stop) :: es2)
    initState pages sf h]
  have hstep : orchStep P sf (LoopEvent.ctrl (some ControlMessage.Stop)) =
      some (StepRes.done Outcome.aborted) := by
    cases hm : sf.mode <;> simp [orchStep, hm]
  simp [runOrch, hstep]

/-- Witness for C5: a 25-page run with 4 active tasks receives `Stop`;
the run aborts with the 4 tasks still active, ignoring a later schedule
event. -/
theorem C5_stop_aborts_immediately_witness :
    runOrch ⟨1, fun _ => Except.ok 1, fun _ => Except.ok 1, 25, 4⟩ initState
        ([LoopEvent.schedule] ++ LoopEvent.ctrl (some ControlMessage.Stop) ::
          [LoopEvent.schedule]) =
      some ([0, 1, 2, 3], some Outcome.aborted, ⟨4, 4, Mode.running⟩) :=
  C5_stop_aborts_immediately ⟨1, fun _ => Except.ok 1, fun _ => Except.ok 1, 25, 4⟩
    [LoopEvent.schedule] [LoopEvent.schedule] [0, 1, 2, 3] ⟨4, 4, Mode.running⟩ rfl

/-- Counterexample to claim C7: with no `Stop` ever received, exhausting
the control source while the loop is paused does not drain to completion —
the loop aborts all tasks and returns at once with the aborted outcome. -/
theorem C7_closed_while_paused_aborts :
    runOrch ⟨1, fun _ => Except.ok 1, fun _ => Except.ok 1, 25, 4⟩ initState
        [LoopEvent.ctrl (some ControlMessage.Pause), LoopEvent.ctrl none] =
      some ([], some Outcome.aborted, ⟨0, 0, Mode.paused⟩) ∧
    Outcome.aborted ≠ Outcome.completed :=
  ⟨rfl, by decide⟩

/-- Claim C7 (amended): exhaustion of the control source while running is
ignored by the loop, which keeps scheduling and draining and can reach
natural completion with every page scheduled; exhaustion while paused
instead aborts the loop immediately. -/
theorem C7_exhaustion_behavior (P : OrchParams) (hmc : 1 ≤ P.maxConc)
    (hok : ∀ p, (spawn_one P.base_ctx (P.ec p) (P.ed p)).task.isSome = true) :
    (∀ s : OrchState, s.mode = Mode.running →
      orchStep P s (LoopEvent.ctrl none) = some (StepRes.cont s [])) ∧
    (∀ s : OrchState, s.mode = Mode.paused →
      orchStep P s (LoopEvent.ctrl none) = some (StepRes.done Outcome.aborted)) ∧
    ∃ es : List LoopEvent,
      runOrch P initState (LoopEvent.ctrl none :: es) =
        some (List.range P.page_count, some Outcome.completed,
          ⟨P.page_count, 0, Mode.running⟩) := by
  refine ⟨?_, ?_, ⟨drainDriver P P.page_count 0, ?_⟩⟩
  · intro s hm
    obtain ⟨sp, ac, mo⟩ := s
    cases hm
    rfl
  · intro s hm
    obtain ⟨sp, ac, mo⟩ := s
    cases hm
    rfl
  · have hstep : orchStep P ⟨0, 0, Mode.running⟩ (LoopEvent.ctrl none) =
        some (StepRes.cont ⟨0, 0, Mode.running⟩ []) := rfl
    have hdrive := drainDriver_runs P hmc hok P.page_count 0
      (Nat.zero_le _) (by omega)
    simp only [initState, runOrch, hstep, hdrive]
    simp [List.range_eq_range']

/-- Witness for the amended C7: a 6-page run whose control source closes
immediately while running drains to completion. -/
theorem C7_exhaustion_behavior_witness :
    ∃ es : List LoopEvent,
      runOrch ⟨1, fun _ => Except.ok 1, fun _ => Except.ok 1, 6, 4⟩ initState
          (LoopEvent.ctrl none :: es) =
        some (List.range 6, some Outcome.completed, ⟨6, 0, Mode.running⟩) :=
  (C7_exhaustion_behavior ⟨1, fun _ => Except.ok 1, fun _ => Except.ok 1, 6, 4⟩
    (by decide) (fun p => rfl)).2.2

end PdfStruct
